import Mathlib

/-!
Shallow embedding of the deployment-lifecycle core of the inertia daemon:
the container fleet client (`ContainerLogs`, `getActiveContainers`,
`stopActiveContainers`), the log request handler (`logHandler`), the up
request handler (`upHandler`) and the down request handler (`downHandler`).
Go functions returning a bare `error` are embedded as `Option GoErr`
(`none` = success); functions returning a value and an `error` are embedded
as `Except`.  Side-effecting runtime calls are recorded in explicit traces
(`TeardownAction`, `UpEvent`) in the order the source issues them.
-/

/-- A Go `error` value produced by the daemon.  `errors.New` sentinels are
compared by identity in Go (`err == ErrNoContainers`), so the sentinel
`ErrNoContainers` is its own constructor, distinct from every other error. -/
inductive GoErr where
  | noContainers
  | other (msg : String)
deriving DecidableEq

/-- Message carried by a `GoErr`, as produced by `Error()` in the source. -/
def GoErr.message : GoErr → String
  | .noContainers => "There are currently no active containers"
  | .other m => m

/-- ErrNoContainers is the response to indicate that no containers are active
(source: `var ErrNoContainers = errors.New(...)`). -/
def ErrNoContainers : GoErr := GoErr.noContainers

/-- Errors returned by the docker client; `docker.IsErrNotFound` distinguishes
`notFound` from every other runtime error. -/
inductive DockerErr where
  | notFound
  | otherErr
deriving DecidableEq

/-- The docker SDK's `types.ContainerLogsOptions`.  Field defaults are the Go
zero values; `tail := ""` means "no tail limit: return every buffered line". -/
structure ContainerLogsOptions where
  showStdout : Bool := false
  showStderr : Bool := false
  follow : Bool := false
  timestamps : Bool := false
  tail : String := ""
deriving DecidableEq

/-- A container known to the runtime, with its buffered log lines. -/
structure RuntimeContainer where
  id : String
  logLines : List String
deriving DecidableEq

/-- State of the container runtime as observed through the docker client:
the containers it knows and whether the runtime itself is failing. -/
structure Runtime where
  containers : List RuntimeContainer
  failure : Bool := false
deriving DecidableEq

/-- Docker's tail semantics: an empty or "all" tail returns every line, a
numeric tail returns the last `n` lines. -/
def applyTail (tail : String) (ls : List String) : List String :=
  if tail = "" || tail = "all" then ls
  else
    match tail.toNat? with
    | some n => ls.drop (ls.length - n)
    | none => ls

/-- Modelled from the spec: the container runtime's log query (§4.1
`fetchLogs`), the external collaborator behind `cli.ContainerLogs`.  It fails
with a not-found error for an unknown container id, with a runtime error when
the runtime is down, and otherwise returns the buffered lines truncated
according to the query's tail option. -/
def dockerContainerLogs (rt : Runtime) (container : String)
    (o : ContainerLogsOptions) : Except DockerErr (List String) :=
  if rt.failure then .error .otherErr
  else
    match rt.containers.find? (fun c => c.id == container) with
    | none => .error .notFound
    | some c => .ok (applyTail o.tail c.logLines)

/-- `containers.LogOptions` as constructed by `logHandler` (fields
`Container`, `Stream`, `Entries`); the fleet client's `ContainerLogs` in the
source reads only `Container` and `Stream`. -/
structure LogOptions where
  container : String
  stream : Bool
  entries : Int
deriving DecidableEq

/-- The fleet client's `ContainerLogs` (source `func ContainerLogs(opts
LogOptions, cli *docker.Client)`): it queries the runtime with `ShowStdout`,
`ShowStderr`, `Follow := opts.Stream` and `Timestamps` set, leaving every
other option (in particular `Tail`) at its zero value. -/
def ContainerLogs (rt : Runtime) (opts : LogOptions) : Except DockerErr (List String) :=
  dockerContainerLogs rt opts.container
    { showStdout := true
      showStderr := true
      follow := opts.stream
      timestamps := true }

/-- A container as reported by `cli.ContainerList`; `names` embeds the
`Names` slice (the source inspects `Names[0]`). -/
structure DockerContainer where
  id : String
  names : List String
deriving DecidableEq

/-- The teardown guard from the source: `container.Names[0] != "/inertia-daemon"`. -/
def isProjectContainer (c : DockerContainer) : Bool :=
  c.names.headD "" != "/inertia-daemon"

/-- One observable runtime call or output line issued during teardown.
`pruneImages` is the docker image-prune API (`cli.ImagesPrune`); it is part
of the client's surface but, as proved below, never issued by this code. -/
inductive TeardownAction where
  | listContainers
  | output (msg : String)
  | stop (id : String) (timeoutSeconds : Nat)
  | pruneContainers
  | pruneImages
deriving DecidableEq

/-- Whether a teardown action is a container stop. -/
def TeardownAction.isStop : TeardownAction → Bool
  | .stop _ _ => true
  | _ => false

/-- The per-container loop of `stopActiveContainers`: for each listed
container whose first name is not the daemon's, print "Stopping ..." and
issue `ContainerStop` with the fixed 10 second timeout; return the first
stop error immediately. -/
def stopLoop (stopRes : String → Option GoErr) :
    List DockerContainer → List TeardownAction × Option GoErr
  | [] => ([], none)
  | c :: rest =>
    if isProjectContainer c then
      match stopRes c.id with
      | some e =>
        ([.output ("Stopping " ++ c.names.headD "" ++ "..."), .stop c.id 10], some e)
      | none =>
        let r := stopLoop stopRes rest
        (.output ("Stopping " ++ c.names.headD "" ++ "...") :: .stop c.id 10 :: r.1, r.2)
    else stopLoop stopRes rest

/-- `stopActiveContainers` (source): prints a banner, lists containers,
stops every non-daemon container in listing order, then calls
`cli.ContainersPrune` and returns its error.  `listRes`, `stopRes` and
`pruneRes` embed the outcomes of the corresponding docker calls. -/
def stopActiveContainers (listRes : Except GoErr (List DockerContainer))
    (stopRes : String → Option GoErr) (pruneRes : Option GoErr) :
    List TeardownAction × Option GoErr :=
  match listRes with
  | .error e => ([.output "Shutting down active containers...", .listContainers], some e)
  | .ok cs =>
    let r := stopLoop stopRes cs
    match r.2 with
    | some e =>
      ([.output "Shutting down active containers...", .listContainers] ++ r.1, some e)
    | none =>
      ([.output "Shutting down active containers...", .listContainers] ++ r.1
        ++ [.pruneContainers], pruneRes)

/-- `getActiveContainers` (source): returns all listed containers, and the
`ErrNoContainers` sentinel when at most one container (the daemon) is active. -/
def getActiveContainers (listRes : Except GoErr (List DockerContainer)) :
    Except GoErr (List DockerContainer) :=
  match listRes with
  | .error e => .error e
  | .ok cs => if cs.length ≤ 1 then .error ErrNoContainers else .ok cs

/-- Modelled from the spec: `deployment.Down` is not under src/; per §4.2 the
Fleet Teardown Controller first lists active containers, failing with
`NoContainers` when the daemon's is the only one, and then stops them all and
prunes, so `Down` surfaces `getActiveContainers`' error and otherwise the
result of `stopActiveContainers`. -/
def deploymentDown (listRes : Except GoErr (List DockerContainer))
    (stopRes : String → Option GoErr) (pruneRes : Option GoErr) : Option GoErr :=
  match getActiveContainers listRes with
  | .error e => some e
  | .ok _ => (stopActiveContainers listRes stopRes pruneRes).2

/-- `downHandler` (source): 412 when the deployment reports no containers,
412 when `Down` returns the `ErrNoContainers` sentinel, 500 on any other
error, 200 on success. -/
def downHandler (statusContainers : List String) (downRes : Option GoErr) : Nat :=
  if statusContainers.length = 0 then 412
  else
    match downRes with
    | some e => if e == ErrNoContainers then 412 else 500
    | none => 200

/-- Go's `strconv.ParseBool`: accepts exactly these twelve strings. -/
def goParseBool (s : String) : Option Bool :=
  if s = "1" || s = "t" || s = "T" || s = "TRUE" || s = "true" || s = "True" then
    some true
  else if s = "0" || s = "f" || s = "F" || s = "FALSE" || s = "false" || s = "False" then
    some false
  else none

/-- Go's `strconv.Atoi` on a 64-bit platform: an optional sign followed by at
least one digit, rejecting anything else and values outside the int64 range. -/
def goAtoi (s : String) : Option Int :=
  let core : Int → List Char → Option Int := fun sign digits =>
    if digits.isEmpty then none
    else if digits.all Char.isDigit then
      let n : Nat := digits.foldl (fun acc c => acc * 10 + (c.toNat - 48)) 0
      let v : Int := sign * (n : Int)
      if -(2 ^ 63) ≤ v ∧ v ≤ 2 ^ 63 - 1 then some v else none
    else none
  match s.toList with
  | '+' :: rest => core 1 rest
  | '-' :: rest => core (-1) rest
  | l => core 1 l

/-- The raw query parameters of a logs request; `Get` returns `""` for an
absent parameter. -/
structure LogsQuery where
  container : String
  streamParam : String
  entriesParam : String
deriving DecidableEq

/-- Lines 27-37 of `logHandler`: the effective stream flag, `none` when the
parameter is present but not a valid boolean, `false` when absent. -/
def streamOf (q : LogsQuery) : Option Bool :=
  if q.streamParam = "" then some false else goParseBool q.streamParam

/-- Lines 40-47 of `logHandler`: the raw entries value, `none` when the
parameter is present but not a valid integer, `0` when absent. -/
def entriesOf (q : LogsQuery) : Option Int :=
  if q.entriesParam = "" then some 0 else goAtoi q.entriesParam

/-- Outcome of a logs request: `clientError` is `http.Error` (400/500),
`writeErr` is `logger.WriteErr` (404/500), `okBody` is the 200 response with
its body lines, `streaming` is the live websocket path. -/
inductive LogOutcome where
  | clientError (status : Nat)
  | writeErr (status : Nat)
  | okBody (lines : List String)
  | streaming
deriving DecidableEq

/-- `logHandler` (source): parse `stream` (400 on bad boolean), parse
`entries` (400 on bad integer, default 500 when absent or zero), upgrade to a
websocket when streaming (500 on failure), fetch logs through the fleet
client (404 when the container is unknown, 500 on any other docker error),
then either stream or write the buffered lines as the response body. -/
def logHandler (rt : Runtime) (upgradeOK : Bool) (q : LogsQuery) : LogOutcome :=
  match streamOf q with
  | none => .clientError 400
  | some stream =>
    match entriesOf q with
    | none => .clientError 400
    | some e0 =>
      let entries : Int := if e0 = 0 then 500 else e0
      if stream && !upgradeOK then .clientError 500
      else
        match ContainerLogs rt { container := q.container, stream := stream, entries := entries } with
        | .error .notFound => .writeErr 404
        | .error .otherErr => .writeErr 500
        | .ok lines => if stream then .streaming else .okBody lines

/-- `common.UpRequest` fields used by `upHandler`. -/
structure UpRequest where
  webHookSecret : String
  branch : String
  stream : Bool
deriving DecidableEq

/-- The project configuration read from `inertia.toml`. -/
structure ProjectConfig where
  project : String
  buildType : String
  buildConfigPath : String
  remoteURL : String
deriving DecidableEq

/-- `project.DeploymentConfig`; unset fields default to the Go zero value. -/
structure DeploymentConfig where
  projectName : String := ""
  buildType : String := ""
  buildFilePath : String := ""
  remoteURL : String := ""
  branch : String := ""
deriving DecidableEq

/-- One observable step of `upHandler`: mutation of the process-wide webhook
secret, the call to `deployment.Initialize`, `deployment.SetConfig`, the call
to `deployment.Deploy` with its `SkipUpdate` flag, the invocation of the
returned deploy closure, and the final HTTP-style response status. -/
inductive UpEvent where
  | setWebhookSecret (s : String)
  | initDeployment (cfg : DeploymentConfig)
  | setConfig (branch : String)
  | deploy (skipUpdate : Bool)
  | runDeploy
  | respond (status : Nat)
deriving DecidableEq

/-- Outcomes of the external collaborators consumed by `upHandler`, one field
per call site in the source: body read, JSON unmarshal, project config read,
docker client creation, `GetStatus().CommitHash`, `Initialize`,
`CompareRemotes`, `Deploy`, and the returned deploy closure. -/
structure UpEnv where
  readBodyResult : Except String String
  unmarshal : String → Except String UpRequest
  readProjectConfig : Except String ProjectConfig
  newDockerClient : Option String
  statusCommitHash : String
  initResult : Option String
  compareRemotes : String → Option String
  deployBuild : Bool → Option String
  deployRun : Option String

/-- Modelled from the spec: `deployment.CompareRemotes` is not under src/;
per §4.3 and §6 (`compareRemote(url) -> bool`) it succeeds exactly when the
given URL matches the deployment's stored remote URL and otherwise fails
with the remote-mismatch error. -/
def compareRemotesSpec (storedRemote : String) : String → Option String :=
  fun url => if url = storedRemote then none else some "remote mismatch"

/-- The tail of `upHandler` after the clone-check: compare remotes (412 on
mismatch), `SetConfig` with the requested branch, `Deploy` with the given
`SkipUpdate` flag (500 on error), run the deploy closure (500 on error), and
report 201 on success. -/
def upAfterInit (env : UpEnv) (upReq : UpRequest) (projectConfig : ProjectConfig)
    (skipUpdate : Bool) : List UpEvent :=
  match env.compareRemotes projectConfig.remoteURL with
  | some _ => [.respond 412]
  | none =>
    UpEvent.setConfig upReq.branch ::
    match env.deployBuild skipUpdate with
    | some _ => [.deploy skipUpdate, .respond 500]
    | none =>
      match env.deployRun with
      | some _ => [.deploy skipUpdate, .runDeploy, .respond 500]
      | none => [.deploy skipUpdate, .runDeploy, .respond 201]

/-- `upHandler` (source): read the body (411 on failure), unmarshal (400 on
failure), assign the process-wide webhook secret, read the project config
(412 on failure), create a docker client (500 on failure); when the current
commit hash is empty call `deployment.Initialize` with the config-derived
deployment parameters (412 on failure) and mark `skipUpdate`; then compare
remotes and deploy. -/
def upHandler (env : UpEnv) : List UpEvent :=
  match env.readBodyResult with
  | .error _ => [.respond 411]
  | .ok body =>
    match env.unmarshal body with
    | .error _ => [.respond 400]
    | .ok upReq =>
      UpEvent.setWebhookSecret upReq.webHookSecret ::
      match env.readProjectConfig with
      | .error _ => [.respond 412]
      | .ok projectConfig =>
        match env.newDockerClient with
        | some _ => [.respond 500]
        | none =>
          if env.statusCommitHash = "" then
            UpEvent.initDeployment
              { projectName := projectConfig.project
                buildType := projectConfig.buildType
                buildFilePath := projectConfig.buildConfigPath
                remoteURL := projectConfig.remoteURL
                branch := upReq.branch } ::
            match env.initResult with
            | some _ => [.respond 412]
            | none => upAfterInit env upReq projectConfig true
          else
            upAfterInit env upReq projectConfig false

/-! Helper lemmas about the teardown loop. -/

theorem stopLoop_ok (stopRes : String → Option GoErr) (cs : List DockerContainer)
    (h : ∀ c ∈ cs, isProjectContainer c = true → stopRes c.id = none) :
    (stopLoop stopRes cs).1.filter TeardownAction.isStop
        = (cs.filter isProjectContainer).map (fun c => TeardownAction.stop c.id 10)
      ∧ (stopLoop stopRes cs).2 = none := by
  induction cs with
  | nil => simp [stopLoop]
  | cons c rest ih =>
    have hrest := ih (fun d hd hp => h d (List.mem_cons_of_mem _ hd) hp)
    cases hcb : isProjectContainer c with
    | false => simp [stopLoop, hcb, hrest.1, hrest.2]
    | true =>
      have hs := h c (List.mem_cons_self _ _) hcb
      simp [stopLoop, hcb, hs, TeardownAction.isStop, hrest.1, hrest.2]

theorem stopLoop_stop_mem (stopRes : String → Option GoErr) (cs : List DockerContainer)
    (i : String) (t : Nat) (h : TeardownAction.stop i t ∈ (stopLoop stopRes cs).1) :
    t = 10 ∧ ∃ c, c ∈ cs ∧ isProjectContainer c = true ∧ c.id = i := by
  induction cs with
  | nil => simp [stopLoop] at h
  | cons c rest ih =>
    cases hcb : isProjectContainer c with
    | false =>
      simp only [stopLoop, hcb, Bool.false_eq_true, if_false] at h
      obtain ⟨ht, d, hd, hp, hi⟩ := ih h
      exact ⟨ht, d, List.mem_cons_of_mem _ hd, hp, hi⟩
    | true =>
      cases hs : stopRes c.id with
      | some e =>
        simp [stopLoop, hcb, hs] at h
        obtain ⟨h1, h2⟩ := h
        subst h1; subst h2
        exact ⟨rfl, c, List.mem_cons_self _ _, hcb, rfl⟩
      | none =>
        simp [stopLoop, hcb, hs] at h
        rcases h with ⟨hi, ht⟩ | h
        · subst hi; subst ht
          exact ⟨rfl, c, List.mem_cons_self _ _, hcb, rfl⟩
        · obtain ⟨ht, d, hd, hp, hi⟩ := ih h
          exact ⟨ht, d, List.mem_cons_of_mem _ hd, hp, hi⟩

theorem stopLoop_no_prune (stopRes : String → Option GoErr) (cs : List DockerContainer) :
    TeardownAction.pruneContainers ∉ (stopLoop stopRes cs).1 := by
  induction cs with
  | nil => simp [stopLoop]
  | cons c rest ih =>
    cases hcb : isProjectContainer c with
    | false => simpa [stopLoop, hcb] using ih
    | true =>
      cases hs : stopRes c.id with
      | some e => simp [stopLoop, hcb, hs]
      | none => simp [stopLoop, hcb, hs, ih]

theorem stopLoop_abort (stopRes : String → Option GoErr) (pre post : List DockerContainer)
    (c : DockerContainer) (e : GoErr)
    (hpre : ∀ d ∈ pre, isProjectContainer d = true → stopRes d.id = none)
    (hc : isProjectContainer c = true) (he : stopRes c.id = some e) :
    stopLoop stopRes (pre ++ c :: post) = stopLoop stopRes (pre ++ [c])
      ∧ (stopLoop stopRes (pre ++ [c])).2 = some e := by
  induction pre with
  | nil => simp [stopLoop, hc, he]
  | cons d pre ih =>
    have ih2 := ih (fun x hx hp => hpre x (List.mem_cons_of_mem _ hx) hp)
    cases hdb : isProjectContainer d with
    | false => simpa [stopLoop, hdb] using ih2
    | true =>
      have hd := hpre d (List.mem_cons_self _ _) hdb
      simp [stopLoop, hdb, hd, ih2.1, ih2.2]

/-! Concrete fleet states used as witnesses and failing inputs. -/

/-- A fleet in which only the daemon's container is active. -/
def daemonOnlyFleet : List DockerContainer := [{ id := "d0", names := ["/inertia-daemon"] }]

/-- A fleet with the daemon between two project containers. -/
def mixedFleet : List DockerContainer :=
  [{ id := "w1", names := ["/web1"] }, { id := "d0", names := ["/inertia-daemon"] },
   { id := "w2", names := ["/web2"] }]

/-- The daemon plus one project container. -/
def idleFleet : List DockerContainer :=
  [{ id := "d0", names := ["/inertia-daemon"] }, { id := "w0", names := ["/web"] }]

/-- Containers already handled before the failing one in the C4 witness. -/
def preFleet : List DockerContainer :=
  [{ id := "d0", names := ["/inertia-daemon"] }, { id := "w1", names := ["/web1"] }]

/-- The container whose stop fails in the C4 witness. -/
def failC : DockerContainer := { id := "w2", names := ["/web2"] }

/-- Containers listed after the failing one in the C4 witness. -/
def postFleet : List DockerContainer := [{ id := "w3", names := ["/web3"] }]

/-- Stop behavior that fails exactly on the container `w2`. -/
def failingStop : String → Option GoErr :=
  fun i => if i == "w2" then some (GoErr.other "stop failed") else none

/-- C2: with at most one listed container the listing fails with the
`ErrNoContainers` sentinel and `downHandler` reports 412 for it, while any
non-sentinel error from `Down` is reported as 500; with two or more listed
containers `getActiveContainers` succeeds and returns all of them. -/
theorem getActiveContainers_noContainers (cs : List DockerContainer) (sc : List String)
    (stopRes : String → Option GoErr) (pruneRes : Option GoErr) (hsc : sc ≠ []) :
    (cs.length ≤ 1 →
        getActiveContainers (.ok cs) = .error ErrNoContainers ∧
        downHandler sc (deploymentDown (.ok cs) stopRes pruneRes) = 412)
  ∧ (2 ≤ cs.length → getActiveContainers (.ok cs) = .ok cs)
  ∧ (∀ m, downHandler sc (some (GoErr.other m)) = 500) := by
  have hlen : sc.length ≠ 0 := by
    simpa [List.length_eq_zero] using hsc
  refine ⟨fun hle => ?_, fun hge => ?_, fun m => ?_⟩
  · constructor
    · simp [getActiveContainers, hle]
    · simp [deploymentDown, getActiveContainers, hle, downHandler, hlen, ErrNoContainers]
  · simp [getActiveContainers]
    omega
  · simp [downHandler, hlen, ErrNoContainers]

/-- C2 witness: a fleet holding only the daemon container makes the listing
fail with `ErrNoContainers` and the down request report 412. -/
theorem getActiveContainers_noContainers_witness :
    getActiveContainers (.ok daemonOnlyFleet) = .error ErrNoContainers ∧
    downHandler ["proj"] (deploymentDown (.ok daemonOnlyFleet) (fun _ => none) none) = 412 :=
  (getActiveContainers_noContainers daemonOnlyFleet ["proj"] (fun _ => none) none
    (by decide)).1 (by decide)

/-- C3: when every project-container stop succeeds, the stops issued by
`stopActiveContainers` are exactly one per listed container whose first name
is not `/inertia-daemon`, in listing order, each with the fixed 10-second
timeout; and for any stop behavior whatsoever every issued stop targets a
listed non-daemon container with timeout 10, so the daemon container is
never stopped. -/
theorem stopActiveContainers_stops_exactly (cs : List DockerContainer)
    (stopRes : String → Option GoErr) (pruneRes : Option GoErr)
    (h : ∀ c ∈ cs, isProjectContainer c = true → stopRes c.id = none) :
    (stopActiveContainers (.ok cs) stopRes pruneRes).1.filter TeardownAction.isStop
        = (cs.filter isProjectContainer).map (fun c => TeardownAction.stop c.id 10)
  ∧ ∀ (sr : String → Option GoErr) (pr : Option GoErr) (i : String) (t : Nat),
      TeardownAction.stop i t ∈ (stopActiveContainers (.ok cs) sr pr).1 →
      t = 10 ∧ ∃ c, c ∈ cs ∧ isProjectContainer c = true ∧ c.id = i := by
  constructor
  · have hk := stopLoop_ok stopRes cs h
    simp [stopActiveContainers, hk.2, TeardownAction.isStop, hk.1]
  · intro sr pr i t hmem
    have : TeardownAction.stop i t ∈ (stopLoop sr cs).1 := by
      rcases hr : (stopLoop sr cs).2 with _ | e <;>
        simpa [stopActiveContainers, hr] using hmem
    exact stopLoop_stop_mem sr cs i t this

/-- C3 witness: on a fleet `[web1, daemon, web2]` with all stops succeeding,
the issued stops are exactly those of the two project containers, in order. -/
theorem stopActiveContainers_stops_exactly_witness :
    (stopActiveContainers (.ok mixedFleet) (fun _ => none) none).1.filter TeardownAction.isStop
      = [TeardownAction.stop "w1" 10, TeardownAction.stop "w2" 10] := by
  have h := stopActiveContainers_stops_exactly mixedFleet (fun _ => none) none (by decide)
  exact h.1.trans (by decide)

/-- C4: when the stop of container `c` fails with `e` after every earlier
project-container stop succeeded, the whole teardown behaves exactly as if
the listing had ended at `c` (so no later container is stopped and the prune
outcome is irrelevant), the operation returns `e` itself, and no prune call
is issued. -/
theorem stopActiveContainers_abort (pre post : List DockerContainer) (c : DockerContainer)
    (e : GoErr) (stopRes : String → Option GoErr) (pruneRes pruneRes2 : Option GoErr)
    (hpre : ∀ d ∈ pre, isProjectContainer d = true → stopRes d.id = none)
    (hc : isProjectContainer c = true) (he : stopRes c.id = some e) :
    stopActiveContainers (.ok (pre ++ c :: post)) stopRes pruneRes
        = stopActiveContainers (.ok (pre ++ [c])) stopRes pruneRes2
  ∧ (stopActiveContainers (.ok (pre ++ c :: post)) stopRes pruneRes).2 = some e
  ∧ TeardownAction.pruneContainers ∉
      (stopActiveContainers (.ok (pre ++ c :: post)) stopRes pruneRes).1 := by
  obtain ⟨h1, h2⟩ := stopLoop_abort stopRes pre post c e hpre hc he
  have h2full : (stopLoop stopRes (pre ++ c :: post)).2 = some e := by rw [h1]; exact h2
  refine ⟨?_, ?_, ?_⟩
  · simp [stopActiveContainers, h1, h2, h2full]
  · simp [stopActiveContainers, h2full]
  · simp [stopActiveContainers, h2full]
    exact fun h => stopLoop_no_prune stopRes (pre ++ c :: post) h

/-- C4 witness: with the stop of `w2` failing, the teardown over
`[daemon, w1, w2, w3]` returns the stop error itself. -/
theorem stopActiveContainers_abort_witness :
    (stopActiveContainers (.ok (preFleet ++ failC :: postFleet)) failingStop none).2
      = some (GoErr.other "stop failed") :=
  (stopActiveContainers_abort preFleet postFleet failC (GoErr.other "stop failed")
    failingStop none (some (GoErr.other "ignored")) (by decide) (by decide) (by decide)).2.1

/-- C5: on the fleet `[daemon, web]` with the stop succeeding and the prune
call failing, the teardown issues the banner, the listing, the stop of the
project container and then a container prune (`cli.ContainersPrune`) as its
last action, surfacing the prune failure as the result; no image prune
(`cli.ImagesPrune`) is ever issued, although the source comment and the spec
say images are pruned. -/
theorem stopActiveContainers_prunes_containers :
    stopActiveContainers (.ok idleFleet) (fun _ => none) (some (GoErr.other "prune failure"))
      = ([.output "Shutting down active containers...", .listContainers,
          .output "Stopping /web...", .stop "w0" 10, .pruneContainers],
         some (GoErr.other "prune failure"))
  ∧ TeardownAction.pruneImages ∉
      (stopActiveContainers (.ok idleFleet) (fun _ => none)
        (some (GoErr.other "prune failure"))).1 := by
  constructor
  · rfl
  · decide

/-! Helper lemma and concrete environments for the up handler. -/

theorem upAfterInit_deploy_flag (env : UpEnv) (req : UpRequest) (cfg : ProjectConfig)
    (su b : Bool) (h : UpEvent.deploy b ∈ upAfterInit env req cfg su) : b = su := by
  unfold upAfterInit at h
  cases hcr : env.compareRemotes cfg.remoteURL with
  | some e => simp [hcr] at h
  | none =>
    cases hdb : env.deployBuild su with
    | some e => simp [hcr, hdb] at h; exact h
    | none =>
      cases hdr : env.deployRun with
      | some e => simp [hcr, hdb, hdr] at h; exact h
      | none => simp [hcr, hdb, hdr] at h; exact h

/-- An up-handler environment in which every collaborator succeeds and no
deployment exists yet (empty commit hash). -/
def upEnvBase : UpEnv :=
  { readBodyResult := .ok "body"
    unmarshal := fun _ => .ok { webHookSecret := "s3", branch := "dev", stream := false }
    readProjectConfig := .ok { project := "p", buildType := "dockerfile",
                               buildConfigPath := "Dockerfile", remoteURL := "r1" }
    newDockerClient := none
    statusCommitHash := ""
    initResult := none
    compareRemotes := fun _ => none
    deployBuild := fun _ => none
    deployRun := none }

/-- Environment with an existing deployment whose stored remote differs from
the configured one. -/
def upEnvMismatch : UpEnv :=
  { upEnvBase with statusCommitHash := "abc123",
                   compareRemotes := compareRemotesSpec "other-remote" }

/-- Environment in which the clone plus first deploy fails. -/
def upEnvInitFail : UpEnv := { upEnvBase with initResult := some "clone failed" }

/-- C6: while the deployment's commit hash is empty, a parsed up request with
readable configuration and a working docker client always calls
`deployment.Initialize` with the config-derived parameters, and any call to
`Deploy` in that same request carries `SkipUpdate = true`, so the update step
is never invoked. -/
theorem upHandler_empty_hash_initializes (env : UpEnv) (b : String) (req : UpRequest)
    (cfg : ProjectConfig)
    (hb : env.readBodyResult = .ok b) (hu : env.unmarshal b = .ok req)
    (hc : env.readProjectConfig = .ok cfg) (hd : env.newDockerClient = none)
    (hh : env.statusCommitHash = "") :
    UpEvent.initDeployment
        { projectName := cfg.project, buildType := cfg.buildType,
          buildFilePath := cfg.buildConfigPath, remoteURL := cfg.remoteURL,
          branch := req.branch } ∈ upHandler env
  ∧ ∀ su, UpEvent.deploy su ∈ upHandler env → su = true := by
  have htr : upHandler env
      = UpEvent.setWebhookSecret req.webHookSecret ::
        UpEvent.initDeployment
          { projectName := cfg.project, buildType := cfg.buildType,
            buildFilePath := cfg.buildConfigPath, remoteURL := cfg.remoteURL,
            branch := req.branch } ::
        (match env.initResult with
         | some _ => [UpEvent.respond 412]
         | none => upAfterInit env req cfg true) := by
    simp [upHandler, hb, hu, hc, hd, hh]
  constructor
  · rw [htr]
    exact List.mem_cons_of_mem _ (List.mem_cons_self _ _)
  · intro su hmem
    rw [htr] at hmem
    simp only [List.mem_cons] at hmem
    rcases hmem with h | h | h
    · simp at h
    · simp at h
    · cases hi : env.initResult with
      | some e => rw [hi] at h; simp at h
      | none =>
        rw [hi] at h
        exact upAfterInit_deploy_flag env req cfg true su h

/-- C6 witness: in the all-success empty-hash environment, Initialize is
called and every Deploy call carries SkipUpdate = true. -/
theorem upHandler_empty_hash_initializes_witness :
    UpEvent.initDeployment
        { projectName := "p", buildType := "dockerfile", buildFilePath := "Dockerfile",
          remoteURL := "r1", branch := "dev" } ∈ upHandler upEnvBase
  ∧ ∀ su, UpEvent.deploy su ∈ upHandler upEnvBase → su = true :=
  upHandler_empty_hash_initializes upEnvBase "body"
    { webHookSecret := "s3", branch := "dev", stream := false }
    { project := "p", buildType := "dockerfile", buildConfigPath := "Dockerfile",
      remoteURL := "r1" }
    rfl rfl rfl rfl rfl

/-- C7: while the deployment's commit hash is non-empty and the configured
remote URL differs from the stored one, the handler emits exactly the
webhook-secret assignment and a 412 response: `Initialize`, `SetConfig`,
`Deploy` and the deploy closure are all never invoked. -/
theorem upHandler_remote_mismatch (env : UpEnv) (b : String) (req : UpRequest)
    (cfg : ProjectConfig) (stored : String)
    (hb : env.readBodyResult = .ok b) (hu : env.unmarshal b = .ok req)
    (hc : env.readProjectConfig = .ok cfg) (hd : env.newDockerClient = none)
    (hh : env.statusCommitHash ≠ "")
    (hcmp : env.compareRemotes = compareRemotesSpec stored)
    (hne : cfg.remoteURL ≠ stored) :
    upHandler env = [UpEvent.setWebhookSecret req.webHookSecret, UpEvent.respond 412] := by
  simp [upHandler, hb, hu, hc, hd, hh, upAfterInit, hcmp, compareRemotesSpec, hne]

/-- C7 witness: with stored remote "other-remote" and configured remote "r1",
the up request is rejected with 412 right after the secret assignment. -/
theorem upHandler_remote_mismatch_witness :
    upHandler upEnvMismatch = [UpEvent.setWebhookSecret "s3", UpEvent.respond 412] :=
  upHandler_remote_mismatch upEnvMismatch "body"
    { webHookSecret := "s3", branch := "dev", stream := false }
    { project := "p", buildType := "dockerfile", buildConfigPath := "Dockerfile",
      remoteURL := "r1" }
    "other-remote" rfl rfl rfl rfl (by decide) rfl (by decide)

/-- C9: as soon as the request body unmarshals, the very first observable
step of the handler is the assignment of the process-wide webhook secret to
the request's value, before configuration reading, remote comparison or any
deployment step, and regardless of whether those later steps fail. -/
theorem upHandler_secret_first (env : UpEnv) (b : String) (req : UpRequest)
    (hb : env.readBodyResult = .ok b) (hu : env.unmarshal b = .ok req) :
    (upHandler env).head? = some (UpEvent.setWebhookSecret req.webHookSecret)
  ∧ UpEvent.setWebhookSecret req.webHookSecret ∈ upHandler env := by
  have htr : upHandler env
      = UpEvent.setWebhookSecret req.webHookSecret ::
        (match env.readProjectConfig with
         | .error _ => [UpEvent.respond 412]
         | .ok projectConfig =>
           match env.newDockerClient with
           | some _ => [UpEvent.respond 500]
           | none =>
             if env.statusCommitHash = "" then
               UpEvent.initDeployment
                 { projectName := projectConfig.project
                   buildType := projectConfig.buildType
                   buildFilePath := projectConfig.buildConfigPath
                   remoteURL := projectConfig.remoteURL
                   branch := req.branch } ::
               match env.initResult with
               | some _ => [UpEvent.respond 412]
               | none => upAfterInit env req projectConfig true
             else upAfterInit env req projectConfig false) := by
    simp [upHandler, hb, hu]
  rw [htr]
  exact ⟨rfl, List.mem_cons_self _ _⟩

/-- C9 witness: in an environment whose config read fails, the secret
assignment is still the first emitted event. -/
theorem upHandler_secret_first_witness :
    (upHandler { upEnvBase with readProjectConfig := .error "no toml" }).head?
      = some (UpEvent.setWebhookSecret "s3") :=
  (upHandler_secret_first { upEnvBase with readProjectConfig := .error "no toml" } "body"
    { webHookSecret := "s3", branch := "dev", stream := false } rfl rfl).1

/-- C10: when `Initialize` fails during an up request with empty commit hash,
the handler responds 412 (precondition failed), not 500, and performs no
deploy step: the full trace is the secret assignment, the Initialize call and
the 412 response. -/
theorem upHandler_init_failure_412 (env : UpEnv) (b : String) (req : UpRequest)
    (cfg : ProjectConfig) (e : String)
    (hb : env.readBodyResult = .ok b) (hu : env.unmarshal b = .ok req)
    (hc : env.readProjectConfig = .ok cfg) (hd : env.newDockerClient = none)
    (hh : env.statusCommitHash = "") (hi : env.initResult = some e) :
    upHandler env
      = [UpEvent.setWebhookSecret req.webHookSecret,
         UpEvent.initDeployment
           { projectName := cfg.project, buildType := cfg.buildType,
             buildFilePath := cfg.buildConfigPath, remoteURL := cfg.remoteURL,
             branch := req.branch },
         UpEvent.respond 412] := by
  simp [upHandler, hb, hu, hc, hd, hh, hi]

/-- C10 witness: a failing clone in the empty-hash environment yields exactly
the 412 trace. -/
theorem upHandler_init_failure_412_witness :
    upHandler upEnvInitFail
      = [UpEvent.setWebhookSecret "s3",
         UpEvent.initDeployment
           { projectName := "p", buildType := "dockerfile", buildFilePath := "Dockerfile",
             remoteURL := "r1", branch := "dev" },
         UpEvent.respond 412] :=
  upHandler_init_failure_412 upEnvInitFail "body"
    { webHookSecret := "s3", branch := "dev", stream := false }
    { project := "p", buildType := "dockerfile", buildConfigPath := "Dockerfile",
      remoteURL := "r1" }
    "clone failed" rfl rfl rfl rfl rfl rfl

/-! Logs handler: error taxonomy and the missing entries cap. -/

/-- C8: the status taxonomy of the logs handler: a malformed `stream` value
yields 400; a malformed `entries` value yields 400; with well-formed
parameters, an unknown container id yields 404 through the logger; and any
other failure of the log fetch (runtime failure) yields 500. -/
theorem logHandler_error_statuses (rt : Runtime) (q : LogsQuery) (u : Bool) :
    (streamOf q = none → logHandler rt u q = .clientError 400)
  ∧ (∀ s, streamOf q = some s → entriesOf q = none →
      logHandler rt u q = .clientError 400)
  ∧ (∀ s e0, streamOf q = some s → entriesOf q = some e0 → (s = true → u = true) →
      rt.failure = false →
      rt.containers.find? (fun c => c.id == q.container) = none →
      logHandler rt u q = .writeErr 404)
  ∧ (∀ s e0, streamOf q = some s → entriesOf q = some e0 → (s = true → u = true) →
      rt.failure = true → logHandler rt u q = .writeErr 500) := by
  refine ⟨fun hs => ?_, fun s hs he => ?_, fun s e0 hs he hu hf hm => ?_,
    fun s e0 hs he hu hf => ?_⟩
  · simp [logHandler, hs]
  · simp [logHandler, hs, he]
  · have hg : (s && !u) = false := by
      cases s with
      | false => rfl
      | true => simp [hu rfl]
    simp [logHandler, hs, he, hg, ContainerLogs, dockerContainerLogs, hf, hm]
  · have hg : (s && !u) = false := by
      cases s with
      | false => rfl
      | true => simp [hu rfl]
    simp [logHandler, hs, he, hg, ContainerLogs, dockerContainerLogs, hf]

/-- C8 witness: a request for an unknown container with well-formed
parameters is answered with 404. -/
theorem logHandler_error_statuses_witness :
    logHandler { containers := [], failure := false } true
        { container := "ghost", streamParam := "", entriesParam := "" }
      = LogOutcome.writeErr 404 :=
  (logHandler_error_statuses { containers := [], failure := false }
      { container := "ghost", streamParam := "", entriesParam := "" } true).2.2.1
    false 0 (by decide) (by decide) (fun _ => rfl) (by decide) (by decide)

/-- A runtime holding one container with 501 buffered log lines. -/
def rtNoCap : Runtime :=
  { containers := [{ id := "web", logLines := List.replicate 501 "x" }] }

/-- C1: the entries cap is never applied.  The fleet client's log query sets
no tail option, so a non-streaming request with the `entries` parameter
absent (defaulted to 500) — or set to 10 — against a container holding 501
buffered lines returns all 501 lines in the response body, and even calling
the fleet client directly with `Entries = 500` returns every line. -/
theorem logHandler_entries_cap_ignored :
    logHandler rtNoCap true { container := "web", streamParam := "", entriesParam := "" }
        = LogOutcome.okBody (List.replicate 501 "x")
  ∧ logHandler rtNoCap true { container := "web", streamParam := "", entriesParam := "10" }
        = LogOutcome.okBody (List.replicate 501 "x")
  ∧ 500 < (List.replicate 501 "x").length
  ∧ ContainerLogs rtNoCap { container := "web", stream := false, entries := 500 }
        = .ok (List.replicate 501 "x") := by
  refine ⟨rfl, rfl, ?_, rfl⟩
  rw [List.length_replicate]
  omega
